import Mathlib

/-!
# Verification of the securesbom-sdk-golang specification

Shallow embedding of the repository: the three example CLIs (sign, verify,
keymgmt) are translated from the Go sources under src/, and the SDK core
(configuration builder, base client, retrying client decorator), whose
sources are not part of the provided tree, is modelled from the
specification text.

Durations are modelled as exact rationals (seconds).  Fallible steps of a
CLI run are supplied by an explicit world record; each CLI main is a pure
function from its flags and world to an exit code and a trace of
observable events (client calls, file writes, stdout rendering).
-/

namespace SecureSBOM

/-- Environment variables, as a partial map from names to values. -/
def Env : Type := String → Option String

/-- Modelled from the spec (section 3 and section 7; the pkg/securesbom
sources are not under src/): the error kinds produced by the SDK.
An API error carries the HTTP status code and the service message;
transport errors are connection-level failures; configuration errors
come from the builder; local I O errors come from file handling. -/
inductive APIError : Type
  | api (status : Nat) (message : String)
  | transport (message : String)
  | config (message : String)
  | localFile (message : String)
deriving DecidableEq

/-- Modelled from the spec (section 4.2: classifies 5xx and
connection-level failures as temporary, 4xx except 429 as permanent,
429 as temporary; configuration and local I O errors are never retried). -/
def isTemporary : APIError → Bool
  | .transport _ => true
  | .api status _ => decide (500 ≤ status) || decide (status = 429)
  | .config _ => false
  | .localFile _ => false

/-- Modelled from the spec (section 3, Retry Policy; the pkg/securesbom
sources are not under src/): max attempts, initial wait, max wait and
backoff multiplier.  Waits are rational numbers of seconds. -/
structure RetryConfig : Type where
  MaxAttempts : Nat
  InitialWait : ℚ
  MaxWait : ℚ
  Multiplier : ℚ
deriving DecidableEq

/-- Modelled from the spec (section 3): the wait before attempt n+1 is
min(initial * multiplier ^ (n-1), max wait), where n is the attempt
that just failed (1-based). -/
def waitTime (c : RetryConfig) (n : Nat) : ℚ :=
  min (c.InitialWait * c.Multiplier ^ (n - 1)) c.MaxWait

/-- Outcome of a single attempt of a wrapped client operation. -/
inductive AttemptOutcome (α : Type) : Type
  | ok (v : α)
  | err (e : APIError)
deriving DecidableEq

/-- Observable result of a decorated operation call.  The exhausted
constructor is the last error wrapped to indicate retry exhaustion,
distinct from a bare single-attempt error; cancelled is the
cancellation error returned when the context is cancelled during a
backoff wait. -/
inductive RetryResult (α : Type) : Type
  | ok (v : α)
  | err (e : APIError)
  | exhausted (e : APIError)
  | cancelled
deriving DecidableEq

/-- Modelled from the spec (section 4.3, steps 1-6; the pkg/securesbom
sources are not under src/): the retry loop.  The operation is a
function from the attempt number (1-based) to its outcome; cancel
states whether the caller context is observed cancelled during the
wait that follows the given attempt.  The remaining argument keeps the
invariant remaining = MaxAttempts - attempt, so spec step 5 condition
attempt < MaxAttempts is remaining > 0.  Returns the result, the
number of the last attempt dispatched, and the list of completed
backoff waits. -/
def retryGo {α : Type} (c : RetryConfig) (op : Nat → AttemptOutcome α)
    (cancel : Nat → Bool) : Nat → Nat → RetryResult α × Nat × List ℚ
  | attempt, 0 =>
      match op attempt with
      | .ok v => (.ok v, attempt, [])
      | .err e =>
          if isTemporary e then (.exhausted e, attempt, [])
          else (.err e, attempt, [])
  | attempt, r + 1 =>
      match op attempt with
      | .ok v => (.ok v, attempt, [])
      | .err e =>
          if isTemporary e then
            if cancel attempt then (.cancelled, attempt, [])
            else
              let res := retryGo c op cancel (attempt + 1) r
              (res.1, res.2.1, waitTime c attempt :: res.2.2)
          else (.err e, attempt, [])

/-- Modelled from the spec (section 4.3): one decorated operation call,
starting at attempt 1 with MaxAttempts - 1 further attempts available. -/
def executeWithRetry {α : Type} (c : RetryConfig) (op : Nat → AttemptOutcome α)
    (cancel : Nat → Bool) : RetryResult α × Nat × List ℚ :=
  retryGo c op cancel 1 (c.MaxAttempts - 1)

/-- Modelled from the spec (section 4.2: no retry logic lives in the base
client, it performs exactly one attempt per call and returns the
outcome unchanged). -/
def baseClientCall {α : Type} (op : Nat → AttemptOutcome α) : RetryResult α × Nat × List ℚ :=
  match op 1 with
  | .ok v => (.ok v, 1, [])
  | .err e => (.err e, 1, [])

/-- Modelled from the spec (sections 4.1 and 9; the pkg/securesbom
sources are not under src/): the configuration builder tracks, per
field that FromEnv recognizes, whether the field was set by an
explicit setter, so that environment values never override explicit
calls. -/
structure ConfigBuilder : Type where
  apiKey : Option String
  apiKeyExplicit : Bool
  baseURL : Option String
  baseURLExplicit : Bool
  timeout : Option ℚ
  userAgent : Option String
deriving DecidableEq

/-- A fresh builder with no field set. -/
def ConfigBuilder.new : ConfigBuilder :=
  ⟨none, false, none, false, none, none⟩

/-- Explicit setter for the API key (last writer wins). -/
def ConfigBuilder.withAPIKey (b : ConfigBuilder) (k : String) : ConfigBuilder :=
  { b with apiKey := some k, apiKeyExplicit := true }

/-- Explicit setter for the base URL (last writer wins). -/
def ConfigBuilder.withBaseURL (b : ConfigBuilder) (u : String) : ConfigBuilder :=
  { b with baseURL := some u, baseURLExplicit := true }

/-- Explicit setter for the request timeout. -/
def ConfigBuilder.withTimeout (b : ConfigBuilder) (t : ℚ) : ConfigBuilder :=
  { b with timeout := some t }

/-- Explicit setter for the user agent. -/
def ConfigBuilder.withUserAgent (b : ConfigBuilder) (s : String) : ConfigBuilder :=
  { b with userAgent := some s }

/-- Modelled from the spec (section 4.1): FromEnv reads
SECURE_SBOM_API_KEY and SECURE_SBOM_BASE_URL and fills only fields not
already explicitly set. -/
def ConfigBuilder.fromEnv (b : ConfigBuilder) (env : Env) : ConfigBuilder :=
  let b1 :=
    if b.apiKeyExplicit then b
    else
      match env "SECURE_SBOM_API_KEY" with
      | some v => { b with apiKey := some v }
      | none => b
  if b1.baseURLExplicit then b1
  else
    match env "SECURE_SBOM_BASE_URL" with
    | some v => { b1 with baseURL := some v }
    | none => b1

/-- Modelled from the spec (section 3): the default service endpoint the
base URL falls back to (the concrete URL is owned by the service and
immaterial here). -/
def defaultBaseURL : String := "https://api.securesbom.example"

/-- Modelled from the spec: default request timeout in seconds. -/
def defaultTimeout : ℚ := 30

/-- Modelled from the spec: default user agent string. -/
def defaultUserAgent : String := "securesbom-sdk-go"

/-- Modelled from the spec (section 3): the immutable client
configuration produced by a successful build. -/
structure Config : Type where
  apiKey : String
  baseURL : String
  timeout : ℚ
  userAgent : String
deriving DecidableEq

/-- Modelled from the spec (section 4.1: BuildClient validates that a
non-empty API key is present and fails with a configuration error
otherwise; defaults are resolved here). -/
def ConfigBuilder.buildClient (b : ConfigBuilder) : Except APIError Config :=
  match b.apiKey with
  | none => .error (.config "API key is required")
  | some k =>
      if k = "" then .error (.config "API key is required")
      else
        .ok { apiKey := k
              baseURL := b.baseURL.getD defaultBaseURL
              timeout := b.timeout.getD defaultTimeout
              userAgent := b.userAgent.getD defaultUserAgent }

/-- A constructed client: either the bare base client or the base client
wrapped in the retry decorator with the given policy. -/
inductive ClientDesc : Type
  | base (cfg : Config)
  | retrying (cfg : Config) (rc : RetryConfig)
deriving DecidableEq

/-- Number of attempts a client dispatches for one operation call: a base
client performs exactly one attempt; a retrying client performs the
attempts of the retry loop. -/
def clientCallAttempts {α : Type} : ClientDesc → (Nat → AttemptOutcome α) → Nat
  | .base _, _ => 1
  | .retrying _ rc, op => (executeWithRetry rc op (fun _ => false)).2.1

/-! ## CLI models (translated from the sources under src/)

The remote operations a CLI dispatches, and the observable events of a
CLI run. -/

/-- The client contract operations (one per remote endpoint). -/
inductive ClientCall : Type
  | healthCheck
  | signSBOM
  | verifySBOM
  | verifySPDXSBOM
  | listKeys
  | generateKey
  | getPublicKey
deriving DecidableEq

/-- Observable events of a CLI run: a dispatched client call, a file
write with the exact content written, or rendering to stdout. -/
inductive Event : Type
  | clientCall (c : ClientCall)
  | writeFile (path : String) (content : String)
  | render
deriving DecidableEq

/-- The client calls of a trace, in order. -/
def clientCalls : List Event → List ClientCall
  | [] => []
  | Event.clientCall c :: es => c :: clientCalls es
  | Event.writeFile _ _ :: es => clientCalls es
  | Event.render :: es => clientCalls es

/-- Did a step succeed (Except as Go (value, error) pairs). -/
def exOk {ε α : Type} : Except ε α → Bool
  | .ok _ => true
  | .error _ => false

/-- Model of the pointer returned by Go flag.String after flag.Parse
(src/cmd/examples/verify/verify.go line 52): flag.String always
returns a valid pointer, never nil; only the pointee varies.  The
provided argument is the value given on the command line, if any; none
leaves the pointee at the default.  The result models the pointer:
none would be the nil pointer, which flag.String never produces. -/
def flagString (defaultValue : String) (provided : Option String) : Option String :=
  some (provided.getD defaultValue)

/-! ### verify CLI (src/cmd/examples/verify/verify.go) -/

/-- Flags of the verify CLI (verify.go lines 49-60).  The signature
field is the command-line value for -signature, if given. -/
structure VerifyFlags : Type where
  help : Bool
  keyID : String
  sbomPath : String
  signature : Option String
  apiKey : String
  baseURL : String
  output : String
  timeout : ℚ
  retries : Int
  quiet : Bool

/-- The verify result decoded from the service (verify.go output paths
use Valid, Message, KeyID, Algorithm; the timestamp is display-only
and omitted). -/
structure VerifyResultResp : Type where
  valid : Bool
  message : String
  keyID : String
  algorithm : String
deriving DecidableEq

/-- Outcomes of the fallible steps of a verify run: the process
environment, the SBOM load, the health check, the verify call, and the
result output. -/
structure VerifyWorld : Type where
  env : Env
  loadResult : Except String String
  healthResult : Option String
  verifyResult : Except String VerifyResultResp
  outputErr : Option String

/-- The builder chain of verify.go createClient (lines 139-151):
NewConfigBuilder().WithTimeout(timeout).FromEnv(), then WithAPIKey and
WithBaseURL only for non-empty command-line values. -/
def verifyConfigBuilder (apiKey baseURL : String) (timeout : ℚ) (env : Env) : ConfigBuilder :=
  let b := (ConfigBuilder.new.withTimeout timeout).fromEnv env
  let b := if apiKey = "" then b else b.withAPIKey apiKey
  if baseURL = "" then b else b.withBaseURL baseURL

/-- verify.go createClient (lines 139-171): build the base client, then
wrap it in the retry decorator when retries > 0, with the fixed policy
InitialWait 1s, MaxWait 10s, Multiplier 2.0. -/
def verifyCreateClient (apiKey baseURL : String) (timeout : ℚ) (retries : Int)
    (env : Env) : Except APIError ClientDesc :=
  match (verifyConfigBuilder apiKey baseURL timeout env).buildClient with
  | .error e => .error e
  | .ok cfg =>
      if 0 < retries then .ok (ClientDesc.retrying cfg ⟨retries.toNat, 1, 10, 2⟩)
      else .ok (ClientDesc.base cfg)

/-- Default of the -retries flag in the verify CLI (verify.go line 57). -/
def verifyRetriesDefault : Int := 3

/-- verify.go main (lines 47-136): flag validation, client creation,
SBOM load, health check, signature-pointer dispatch between
VerifySBOM and VerifySPDXSBOM, result output, and the exit code
(log.Fatal exits with code 1; os.Exit(1) on an invalid result). -/
def verifyMain (fl : VerifyFlags) (w : VerifyWorld) : Nat × List Event :=
  if fl.help then (0, [])
  else if fl.keyID = "" then (1, [])
  else if fl.output ≠ "text" ∧ fl.output ≠ "json" then (1, [])
  else
    match verifyCreateClient fl.apiKey fl.baseURL fl.timeout fl.retries w.env with
    | .error _ => (1, [])
    | .ok _client =>
        match w.loadResult with
        | .error _ => (1, [])
        | .ok _sbom =>
            match w.healthResult with
            | some _ => (1, [Event.clientCall ClientCall.healthCheck])
            | none =>
                match flagString "" fl.signature with
                | none =>
                    match w.verifyResult with
                    | .error _ =>
                        (1, [Event.clientCall ClientCall.healthCheck,
                             Event.clientCall ClientCall.verifySBOM])
                    | .ok r =>
                        let tr := [Event.clientCall ClientCall.healthCheck,
                                   Event.clientCall ClientCall.verifySBOM, Event.render]
                        match w.outputErr with
                        | some _ => (1, tr)
                        | none => if r.valid then (0, tr) else (1, tr)
                | some _sig =>
                    match w.verifyResult with
                    | .error _ =>
                        (1, [Event.clientCall ClientCall.healthCheck,
                             Event.clientCall ClientCall.verifySPDXSBOM])
                    | .ok r =>
                        let tr := [Event.clientCall ClientCall.healthCheck,
                                   Event.clientCall ClientCall.verifySPDXSBOM, Event.render]
                        match w.outputErr with
                        | some _ => (1, tr)
                        | none => if r.valid then (0, tr) else (1, tr)

/-- All fallible steps of a verify run succeeded (mirrors the guards of
verifyMain, in order). -/
def verifyStepsOkB (fl : VerifyFlags) (w : VerifyWorld) : Bool :=
  decide (¬ fl.keyID = "") &&
  decide (¬ (fl.output ≠ "text" ∧ fl.output ≠ "json")) &&
  exOk (verifyCreateClient fl.apiKey fl.baseURL fl.timeout fl.retries w.env) &&
  exOk w.loadResult && w.healthResult.isNone && exOk w.verifyResult && w.outputErr.isNone

/-- Valid field of the verify result, when the verify call succeeded. -/
def resultValid (w : VerifyWorld) : Bool :=
  match w.verifyResult with
  | .ok r => r.valid
  | .error _ => false

/-- Flag names registered by the verify CLI (verify.go lines 49-60). -/
def verifyFlagNames : List String :=
  ["key-id", "sbom", "signature", "api-key", "base-url", "output",
   "timeout", "retries", "quiet", "help"]

/-! ### sign CLI (src/unnamed/part_000) -/

/-- Flags of the sign CLI (part_000 lines 49-59). -/
structure SignFlags : Type where
  help : Bool
  keyID : String
  sbomPath : String
  outputPath : String
  apiKey : String
  baseURL : String
  timeout : ℚ
  retries : Int
  quiet : Bool

/-- Outcomes of the fallible steps of a sign run.  The ok value of
signResult stands for the marshalled signed SBOM (JSON marshalling of
the response is kept abstract as the output string). -/
structure SignWorld : Type where
  env : Env
  loadResult : Except String String
  healthResult : Option String
  signResult : Except String String
  outputErr : Option String

/-- The builder chain of part_000 createClient (lines 125-137), the same
shape as the verify CLI. -/
def signConfigBuilder (apiKey baseURL : String) (timeout : ℚ) (env : Env) : ConfigBuilder :=
  let b := (ConfigBuilder.new.withTimeout timeout).fromEnv env
  let b := if apiKey = "" then b else b.withAPIKey apiKey
  if baseURL = "" then b else b.withBaseURL baseURL

/-- part_000 createClient (lines 125-157): base client, wrapped in the
retry decorator when retries > 0 with InitialWait 1s, MaxWait 10s,
Multiplier 2.0. -/
def signCreateClient (apiKey baseURL : String) (timeout : ℚ) (retries : Int)
    (env : Env) : Except APIError ClientDesc :=
  match (signConfigBuilder apiKey baseURL timeout env).buildClient with
  | .error e => .error e
  | .ok cfg =>
      if 0 < retries then .ok (ClientDesc.retrying cfg ⟨retries.toNat, 1, 10, 2⟩)
      else .ok (ClientDesc.base cfg)

/-- Default of the -retries flag in the sign CLI (part_000 line 56). -/
def signRetriesDefault : Int := 3

/-- part_000 outputSignedSBOM (lines 171-191): stdout for an empty or -
output path, else a file write of the marshalled result. -/
def signOutEvent (path content : String) : Event :=
  if path = "" ∨ path = "-" then Event.render else Event.writeFile path content

/-- part_000 main (lines 47-122): flag validation, client creation, SBOM
load, health check, SignSBOM, output. -/
def signMain (fl : SignFlags) (w : SignWorld) : Nat × List Event :=
  if fl.help then (0, [])
  else if fl.keyID = "" then (1, [])
  else
    match signCreateClient fl.apiKey fl.baseURL fl.timeout fl.retries w.env with
    | .error _ => (1, [])
    | .ok _client =>
        match w.loadResult with
        | .error _ => (1, [])
        | .ok _sbom =>
            match w.healthResult with
            | some _ => (1, [Event.clientCall ClientCall.healthCheck])
            | none =>
                match w.signResult with
                | .error _ =>
                    (1, [Event.clientCall ClientCall.healthCheck,
                         Event.clientCall ClientCall.signSBOM])
                | .ok signed =>
                    let tr := [Event.clientCall ClientCall.healthCheck,
                               Event.clientCall ClientCall.signSBOM,
                               signOutEvent fl.outputPath signed]
                    match w.outputErr with
                    | some _ => (1, tr)
                    | none => (0, tr)

/-- Flag names registered by the sign CLI (part_000 lines 49-59). -/
def signFlagNames : List String :=
  ["key-id", "sbom", "output", "api-key", "base-url", "timeout",
   "retries", "quiet", "help"]

/-! ### keymgmt CLI (src/unnamed/part_001) -/

/-- part_001 createClient (lines 200-213): the builder chain, the same
shape as the other CLIs. -/
def keymgmtConfigBuilder (apiKey baseURL : String) (timeout : ℚ) (env : Env) : ConfigBuilder :=
  let b := (ConfigBuilder.new.withTimeout timeout).fromEnv env
  let b := if apiKey = "" then b else b.withAPIKey apiKey
  if baseURL = "" then b else b.withBaseURL baseURL

/-- part_001 createClient (lines 200-213): returns the BuildClient
result directly, with no retry wrapping and no retry flag. -/
def keymgmtCreateClient (apiKey baseURL : String) (timeout : ℚ)
    (env : Env) : Except APIError ClientDesc :=
  ((keymgmtConfigBuilder apiKey baseURL timeout env).buildClient).map ClientDesc.base

/-- A key entry of the list response (display fields only). -/
structure KeyInfo : Type where
  id : String
  algorithm : String
deriving DecidableEq

/-- Flags of keymgmt list (part_001 lines 58-63). -/
structure ListFlags : Type where
  apiKey : String
  baseURL : String
  output : String
  timeout : ℚ
  quiet : Bool

/-- Outcomes of the fallible steps of a keymgmt list run. -/
structure ListWorld : Type where
  env : Env
  listResult : Except String (List KeyInfo)

/-- part_001 runListCommand (lines 57-96): flag validation, client
creation, ListKeys, output.  No health check is dispatched. -/
def keymgmtListMain (fl : ListFlags) (w : ListWorld) : Nat × List Event :=
  if fl.output ≠ "table" ∧ fl.output ≠ "json" then (1, [])
  else
    match keymgmtCreateClient fl.apiKey fl.baseURL fl.timeout w.env with
    | .error _ => (1, [])
    | .ok _client =>
        match w.listResult with
        | .error _ => (1, [Event.clientCall ClientCall.listKeys])
        | .ok _keys => (0, [Event.clientCall ClientCall.listKeys, Event.render])

/-- The generated key response (part_001 outputGeneratedKeyTable fields;
the creation time is display-only and omitted). -/
structure GeneratedKey : Type where
  id : String
  algorithm : String
  publicKey : String
deriving DecidableEq

/-- Flags of keymgmt generate (part_001 lines 100-106). -/
structure GenerateFlags : Type where
  apiKey : String
  baseURL : String
  output : String
  savePublic : String
  timeout : ℚ
  quiet : Bool

/-- Outcomes of the fallible steps of a keymgmt generate run. -/
structure GenerateWorld : Type where
  env : Env
  generateResult : Except String GeneratedKey
  writeErr : Option String

/-- part_001 runGenerateCommand (lines 99-149): flag validation, client
creation, GenerateKey, then, when -save-public is non-empty, a write
of exactly the PublicKey bytes to that path, then rendering.  No
health check is dispatched. -/
def keymgmtGenerateMain (fl : GenerateFlags) (w : GenerateWorld) : Nat × List Event :=
  if fl.output ≠ "table" ∧ fl.output ≠ "json" then (1, [])
  else
    match keymgmtCreateClient fl.apiKey fl.baseURL fl.timeout w.env with
    | .error _ => (1, [])
    | .ok _client =>
        match w.generateResult with
        | .error _ => (1, [Event.clientCall ClientCall.generateKey])
        | .ok key =>
            if fl.savePublic = "" then
              (0, [Event.clientCall ClientCall.generateKey, Event.render])
            else
              match w.writeErr with
              | some _ =>
                  (1, [Event.clientCall ClientCall.generateKey,
                       Event.writeFile fl.savePublic key.publicKey])
              | none =>
                  (0, [Event.clientCall ClientCall.generateKey,
                       Event.writeFile fl.savePublic key.publicKey, Event.render])

/-- Flags of keymgmt public (part_001 lines 153-159); keyIDArg is the
positional argument, if present. -/
structure PublicFlags : Type where
  apiKey : String
  baseURL : String
  outputFile : String
  timeout : ℚ
  quiet : Bool
  keyIDArg : Option String

/-- Outcomes of the fallible steps of a keymgmt public run. -/
structure PublicWorld : Type where
  env : Env
  publicKeyResult : Except String String
  writeErr : Option String

/-- part_001 runPublicCommand (lines 152-197): positional argument
check, client creation, GetPublicKey, then stdout or a file write. -/
def keymgmtPublicMain (fl : PublicFlags) (w : PublicWorld) : Nat × List Event :=
  match fl.keyIDArg with
  | none => (1, [])
  | some _keyID =>
      match keymgmtCreateClient fl.apiKey fl.baseURL fl.timeout w.env with
      | .error _ => (1, [])
      | .ok _client =>
          match w.publicKeyResult with
          | .error _ => (1, [Event.clientCall ClientCall.getPublicKey])
          | .ok pk =>
              if fl.outputFile = "" then
                (0, [Event.clientCall ClientCall.getPublicKey, Event.render])
              else
                match w.writeErr with
                | some _ =>
                    (1, [Event.clientCall ClientCall.getPublicKey,
                         Event.writeFile fl.outputFile pk])
                | none =>
                    (0, [Event.clientCall ClientCall.getPublicKey,
                         Event.writeFile fl.outputFile pk])

/-- Flag names registered by keymgmt list (part_001 lines 58-63). -/
def keymgmtListFlagNames : List String :=
  ["api-key", "base-url", "output", "timeout", "quiet"]

/-- Flag names registered by keymgmt generate (part_001 lines 100-106). -/
def keymgmtGenerateFlagNames : List String :=
  ["api-key", "base-url", "output", "save-public", "timeout", "quiet"]

/-- Flag names registered by keymgmt public (part_001 lines 153-158). -/
def keymgmtPublicFlagNames : List String :=
  ["api-key", "base-url", "output", "timeout", "quiet"]

/-! ## Helper lemmas about the retry loop -/

/-- Shifting a map over an initial segment by one position. -/
theorem range_succ_map_shift {β : Type} (f : Nat → β) (a j : Nat) :
    (List.range (j + 1)).map (fun i => f (a + i)) =
      f a :: (List.range j).map (fun i => f (a + 1 + i)) := by
  rw [List.range_succ_eq_map]
  simp only [List.map_cons, List.map_map, Nat.add_zero]
  refine congrArg _ ?_
  apply List.map_congr_left
  intro i _
  have h2 : a + 1 + i = a + (i + 1) := by omega
  simp [Function.comp, h2, Nat.succ_eq_add_one]

/-- A permanently classified error at the current attempt stops the loop
at once, whatever the remaining budget. -/
theorem retryGo_perm {α : Type} (c : RetryConfig) (op : Nat → AttemptOutcome α)
    (cancel : Nat → Bool) (a r : Nat) (e0 : APIError)
    (hopa : op a = .err e0) (hfalse : isTemporary e0 = false) :
    retryGo c op cancel a r = (.err e0, a, []) := by
  cases r <;> simp [retryGo, hopa, hfalse]

/-- Running the loop through j temporary-failing attempts with no
cancellation consumes j budget, records the j geometric waits, and
continues from attempt a + j. -/
theorem retryGo_temp_run {α : Type} (c : RetryConfig) (op : Nat → AttemptOutcome α)
    (e : Nat → APIError) (cancel : Nat → Bool)
    (hop : ∀ k, op k = .err (e k)) :
    ∀ (j a r : Nat), (∀ i, i < j → isTemporary (e (a + i)) = true) →
      (∀ i, i < j → cancel (a + i) = false) → j ≤ r →
      retryGo c op cancel a r =
        ((retryGo c op cancel (a + j) (r - j)).1,
         (retryGo c op cancel (a + j) (r - j)).2.1,
         (List.range j).map (fun i => waitTime c (a + i)) ++
           (retryGo c op cancel (a + j) (r - j)).2.2) := by
  intro j
  induction j with
  | zero =>
      intro a r _ _ _
      simp
  | succ n ih =>
      intro a r htmp hc hjr
      obtain ⟨r0, rfl⟩ : ∃ r0, r = r0 + 1 := ⟨r - 1, by omega⟩
      have ht0 : isTemporary (e a) = true := by
        have := htmp 0 (by omega); simpa using this
      have hc0 : cancel a = false := by
        have := hc 0 (by omega); simpa using this
      have ihh := ih (a + 1) r0
        (fun i hi => by
          have h2 : a + 1 + i = a + (i + 1) := by omega
          rw [h2]; exact htmp (i + 1) (by omega))
        (fun i hi => by
          have h2 : a + 1 + i = a + (i + 1) := by omega
          rw [h2]; exact hc (i + 1) (by omega))
        (by omega)
      have e1 : a + (n + 1) = a + 1 + n := by omega
      have e2 : r0 + 1 - (n + 1) = r0 - n := by omega
      rw [e1, e2]
      simp only [retryGo, hop a, ht0, hc0, if_true, if_false, Bool.false_eq_true]
      rw [ihh, range_succ_map_shift]
      simp

/-! ## Claim theorems -/

/-- Claim C2: for every retry policy with MaxAttempts = n >= 1 and every
operation failing with a temporary-classified error on all attempts,
the decorator invokes the wrapped method exactly n times, waits
min(InitialWait * Multiplier ^ (k-1), MaxWait) between attempt k and
attempt k+1, and returns the last error wrapped as retry exhaustion
(the exhausted constructor, distinct from a bare error). -/
theorem retry_exhausts_after_max_attempts {α : Type} (c : RetryConfig)
    (op : Nat → AttemptOutcome α) (e : Nat → APIError)
    (hmax : 1 ≤ c.MaxAttempts)
    (hop : ∀ k, op k = .err (e k))
    (htmp : ∀ k, isTemporary (e k) = true) :
    executeWithRetry c op (fun _ => false) =
      (.exhausted (e c.MaxAttempts), c.MaxAttempts,
       (List.range (c.MaxAttempts - 1)).map
         (fun i => min (c.InitialWait * c.Multiplier ^ i) c.MaxWait)) := by
  have h := retryGo_temp_run c op e (fun _ => false) hop
      (c.MaxAttempts - 1) 1 (c.MaxAttempts - 1)
      (fun i _ => htmp (1 + i)) (fun _ _ => rfl) (le_refl _)
  have h1 : 1 + (c.MaxAttempts - 1) = c.MaxAttempts := by omega
  rw [h1, Nat.sub_self] at h
  unfold executeWithRetry
  rw [h]
  simp only [retryGo, hop c.MaxAttempts, htmp c.MaxAttempts, if_true, List.append_nil]
  refine congrArg _ (congrArg _ ?_)
  apply List.map_congr_left
  intro i _
  simp [waitTime, Nat.add_sub_cancel_left]

/-- Witness for C2 at a concrete policy: three attempts, waits 1s then
2s, and a retry-exhaustion result. -/
theorem retry_exhausts_after_max_attempts_witness :
    executeWithRetry ⟨3, 1, 10, 2⟩
        (fun _ => AttemptOutcome.err (α := Unit) (.transport "connection refused"))
        (fun _ => false) =
      (.exhausted (.transport "connection refused"), 3, [(1 : ℚ), 2]) := by
  have h := retry_exhausts_after_max_attempts (α := Unit) ⟨3, 1, 10, 2⟩
      (fun _ => AttemptOutcome.err (.transport "connection refused"))
      (fun _ => .transport "connection refused")
      (by decide) (fun _ => rfl) (fun _ => rfl)
  rw [h]
  norm_num [List.range_succ, min_def]

/-- Claim C5: an attempt failing with a permanently classified error (a
4xx API error other than 429, or a configuration error) is returned
at once: the decorator makes no further attempts and no further
waits, for every policy under which attempt k is reached. -/
theorem permanent_error_stops_retries {α : Type} (c : RetryConfig)
    (op : Nat → AttemptOutcome α) (e : Nat → APIError) (k : Nat)
    (h1 : 1 ≤ k) (hk : k ≤ max c.MaxAttempts 1)
    (hop : ∀ j, op j = .err (e j))
    (htmp : ∀ j, 1 ≤ j → j < k → isTemporary (e j) = true)
    (hperm : (∃ s m, e k = .api s m ∧ 400 ≤ s ∧ s < 500 ∧ s ≠ 429) ∨
             (∃ m, e k = .config m)) :
    executeWithRetry c op (fun _ => false) =
      (.err (e k), k, (List.range (k - 1)).map (fun i => waitTime c (1 + i))) := by
  have hfalse : isTemporary (e k) = false := by
    rcases hperm with ⟨s, m, hes, hs1, hs2, hs3⟩ | ⟨m, hes⟩
    · rw [hes]; simp [isTemporary]; omega
    · rw [hes]; simp [isTemporary]
  have hjr : k - 1 ≤ c.MaxAttempts - 1 := by
    rcases le_max_iff.mp hk with h | h <;> omega
  have h := retryGo_temp_run c op e (fun _ => false) hop
      (k - 1) 1 (c.MaxAttempts - 1)
      (fun i hi => htmp (1 + i) (by omega) (by omega))
      (fun _ _ => rfl) hjr
  have h1k : 1 + (k - 1) = k := by omega
  rw [h1k] at h
  unfold executeWithRetry
  rw [h, retryGo_perm c op (fun _ => false) k (c.MaxAttempts - 1 - (k - 1)) (e k)
        (hop k) hfalse]
  simp

/-- Witness for C5 at a concrete input: a 404 on attempt 1 under a
three-attempt policy is returned bare after a single attempt. -/
theorem permanent_error_stops_retries_witness :
    executeWithRetry (⟨3, 1, 10, 2⟩ : RetryConfig)
        (fun _ => AttemptOutcome.err (α := Unit) (.api 404 "key not found"))
        (fun _ => false) =
      (.err (.api 404 "key not found"), 1, []) := by
  have h := permanent_error_stops_retries (α := Unit) ⟨3, 1, 10, 2⟩
      (fun _ => AttemptOutcome.err (.api 404 "key not found"))
      (fun _ => .api 404 "key not found") 1
      (by decide) (by decide) (fun _ => rfl)
      (fun j hj1 hj2 => absurd hj1 (by omega))
      (Or.inl ⟨404, "key not found", rfl, by decide, by decide, by decide⟩)
  rw [h]
  decide

/-- Claim C6: if the context is observed cancelled during the backoff
wait that follows attempt a (with attempts 1..a all failing
temporarily and no earlier cancellation), the wait aborts, the
decorator returns the cancellation result, and no attempt beyond a is
dispatched: exactly a attempts and only the a-1 completed waits. -/
theorem cancellation_during_wait_aborts {α : Type} (c : RetryConfig)
    (op : Nat → AttemptOutcome α) (e : Nat → APIError) (cancel : Nat → Bool) (a : Nat)
    (h1 : 1 ≤ a) (ha : a < c.MaxAttempts)
    (hop : ∀ j, op j = .err (e j))
    (htmp : ∀ j, 1 ≤ j → j ≤ a → isTemporary (e j) = true)
    (hcbefore : ∀ j, 1 ≤ j → j < a → cancel j = false)
    (hcancel : cancel a = true) :
    executeWithRetry c op cancel =
      (.cancelled, a, (List.range (a - 1)).map (fun i => waitTime c (1 + i))) := by
  have h := retryGo_temp_run c op e cancel hop
      (a - 1) 1 (c.MaxAttempts - 1)
      (fun i hi => htmp (1 + i) (by omega) (by omega))
      (fun i hi => hcbefore (1 + i) (by omega) (by omega))
      (by omega)
  have h1a : 1 + (a - 1) = a := by omega
  rw [h1a] at h
  obtain ⟨t, ht⟩ : ∃ t, c.MaxAttempts - 1 - (a - 1) = t + 1 :=
    ⟨c.MaxAttempts - a - 1, by omega⟩
  unfold executeWithRetry
  rw [h, ht]
  simp [retryGo, hop a, htmp a (by omega) (le_refl a), hcancel]

/-- Witness for C6 at a concrete input: cancellation during the wait
after attempt 1 yields the cancellation result after exactly one
attempt and no completed wait. -/
theorem cancellation_during_wait_aborts_witness :
    executeWithRetry (⟨3, 1, 10, 2⟩ : RetryConfig)
        (fun _ => AttemptOutcome.err (α := Unit) (.api 503 "unavailable"))
        (fun k => k == 1) =
      (.cancelled, 1, []) := by
  have h := cancellation_during_wait_aborts (α := Unit) ⟨3, 1, 10, 2⟩
      (fun _ => AttemptOutcome.err (.api 503 "unavailable"))
      (fun _ => .api 503 "unavailable") (fun k => k == 1) 1
      (by decide) (by decide) (fun _ => rfl)
      (fun _ _ _ => rfl)
      (fun j hj1 hj2 => absurd hj1 (by omega))
      (by decide)
  rw [h]
  decide

/-- Claim C4, counterexample: with MaxAttempts = 1 and an operation that
fails with a temporary-classified error, the decorated call returns
the error wrapped as retry exhaustion while the undecorated base
client returns it bare, so the observable behaviors differ. -/
theorem single_attempt_passthrough_counterexample :
    executeWithRetry (⟨1, 1, 10, 2⟩ : RetryConfig)
        (fun _ => AttemptOutcome.err (α := Unit) (.api 503 "unavailable"))
        (fun _ => false) ≠
      baseClientCall (fun _ => AttemptOutcome.err (α := Unit) (.api 503 "unavailable")) := by
  decide

/-- Claim C4 as amended: for MaxAttempts <= 1 the decorator dispatches
exactly one attempt and never waits; on a successful attempt and on a
permanently classified error its observable behavior is identical to
the undecorated base client; a temporary-classified error, however,
is returned wrapped as retry exhaustion rather than bare. -/
theorem single_attempt_when_retries_disabled {α : Type} (c : RetryConfig)
    (op : Nat → AttemptOutcome α) (cancel : Nat → Bool)
    (h : c.MaxAttempts ≤ 1) :
    (executeWithRetry c op cancel).2.1 = 1 ∧
    (executeWithRetry c op cancel).2.2 = [] ∧
    (∀ v, op 1 = .ok v → executeWithRetry c op cancel = baseClientCall op) ∧
    (∀ e0, op 1 = .err e0 → isTemporary e0 = false →
      executeWithRetry c op cancel = baseClientCall op) ∧
    (∀ e0, op 1 = .err e0 → isTemporary e0 = true →
      executeWithRetry c op cancel = (.exhausted e0, 1, [])) := by
  have h0 : c.MaxAttempts - 1 = 0 := by omega
  unfold executeWithRetry
  rw [h0]
  refine ⟨?_, ?_, ?_, ?_, ?_⟩
  · rcases hc : op 1 with v | e0
    · simp [retryGo, hc]
    · simp only [retryGo, hc]
      split <;> simp
  · rcases hc : op 1 with v | e0
    · simp [retryGo, hc]
    · simp only [retryGo, hc]
      split <;> simp
  · intro v hv; simp [retryGo, baseClientCall, hv]
  · intro e0 he hf; simp [retryGo, baseClientCall, he, hf]
  · intro e0 he ht; simp [retryGo, he, ht]

/-- Witness for the amended C4 at concrete inputs: with MaxAttempts = 1,
a successful operation behaves exactly as with the base client, and
the attempt count is 1 with no waits. -/
theorem single_attempt_when_retries_disabled_witness :
    (executeWithRetry (⟨1, 1, 10, 2⟩ : RetryConfig)
        (fun _ => AttemptOutcome.ok (42 : Nat)) (fun _ => false)).2.1 = 1 ∧
    executeWithRetry (⟨1, 1, 10, 2⟩ : RetryConfig)
        (fun _ => AttemptOutcome.ok (42 : Nat)) (fun _ => false) =
      baseClientCall (fun _ => AttemptOutcome.ok (42 : Nat)) :=
  ⟨(single_attempt_when_retries_disabled ⟨1, 1, 10, 2⟩
      (fun _ => AttemptOutcome.ok (42 : Nat)) (fun _ => false) (by decide)).1,
   (single_attempt_when_retries_disabled ⟨1, 1, 10, 2⟩
      (fun _ => AttemptOutcome.ok (42 : Nat)) (fun _ => false) (by decide)).2.2.1 42 rfl⟩

/-- Claim C7: a field set by an explicit setter keeps its explicit value
whatever FromEnv does and in either call order, for both fields
FromEnv recognizes: FromEnv fills only fields not already explicitly
set, and a later explicit setter overwrites whatever FromEnv put
there.  Stated for the API key and the base URL, for every builder
state and every environment. -/
theorem explicit_setters_beat_env (b : ConfigBuilder) (k u : String) (env : Env) :
    ((b.withAPIKey k).fromEnv env).apiKey = some k ∧
    ((b.fromEnv env).withAPIKey k).apiKey = some k ∧
    ((b.withBaseURL u).fromEnv env).baseURL = some u ∧
    ((b.fromEnv env).withBaseURL u).baseURL = some u := by
  refine ⟨?_, rfl, ?_, rfl⟩
  · unfold ConfigBuilder.fromEnv ConfigBuilder.withAPIKey
    repeat' split
    all_goals simp_all [apply_ite ConfigBuilder.apiKey]
  · unfold ConfigBuilder.fromEnv ConfigBuilder.withBaseURL
    repeat' split
    all_goals simp_all [apply_ite ConfigBuilder.baseURL]

/-- The sign output step never dispatches a client call, whichever form
(stdout or file write) it takes. -/
theorem clientCalls_cons_signOut (p c : String) (es : List Event) :
    clientCalls (signOutEvent p c :: es) = clientCalls es := by
  unfold signOutEvent
  split <;> simp [clientCalls]

/-- Claim C1: the pointer flag.String returns is never nil, so the
branch on signature == nil in the verify CLI never takes its nil arm:
the CycloneDX call VerifySBOM is unreachable and every invocation
that verifies at all dispatches VerifySPDXSBOM (after the health
check), whatever the -signature value, including the default empty
string. -/
theorem verify_signature_branch_unreachable :
    (∀ d p, flagString d p ≠ none) ∧
    (∀ fl w, Event.clientCall ClientCall.verifySBOM ∉ (verifyMain fl w).2) ∧
    (∀ fl w, clientCalls (verifyMain fl w).2 = [] ∨
      clientCalls (verifyMain fl w).2 = [ClientCall.healthCheck] ∨
      clientCalls (verifyMain fl w).2 =
        [ClientCall.healthCheck, ClientCall.verifySPDXSBOM]) := by
  refine ⟨fun d p => by simp [flagString], ?_, ?_⟩
  · intro fl w
    unfold verifyMain
    repeat' split
    all_goals simp_all [flagString]
  · intro fl w
    unfold verifyMain
    repeat' split
    all_goals simp_all [flagString, clientCalls]

/-- Witness for C1 at concrete inputs: the signature flag left at its
default still produces a non-nil pointer, and a complete successful
verify run does not dispatch the CycloneDX verify call. -/
theorem verify_signature_branch_unreachable_witness :
    flagString "" none ≠ none ∧
    Event.clientCall ClientCall.verifySBOM ∉
      (verifyMain ⟨false, "key-1", "", none, "", "", "text", 30, 3, false⟩
        ⟨fun _ => some "apikey", .ok "sbom", none, .ok ⟨true, "", "", ""⟩, none⟩).2 :=
  ⟨verify_signature_branch_unreachable.1 "" none,
   verify_signature_branch_unreachable.2.1
     ⟨false, "key-1", "", none, "", "", "text", 30, 3, false⟩
     ⟨fun _ => some "apikey", .ok "sbom", none, .ok ⟨true, "", "", ""⟩, none⟩⟩

/-- Claim C3, counterexample: a successful keymgmt list invocation
dispatches its main operation ListKeys without any health check, so
not every CLI invocation performs a health check before its main
operation. -/
theorem health_check_everywhere_counterexample :
    ClientCall.healthCheck ∉
      clientCalls (keymgmtListMain ⟨"", "", "table", 30, false⟩
        ⟨fun _ => some "apikey", .ok []⟩).2 ∧
    ClientCall.listKeys ∈
      clientCalls (keymgmtListMain ⟨"", "", "table", 30, false⟩
        ⟨fun _ => some "apikey", .ok []⟩).2 := by
  decide

/-- Claim C3 as amended: the sign and verify CLIs dispatch the health
check before their main operation (their client-call trace is always
a prefix of health check followed by the main call), while the
keymgmt subcommands dispatch their main operation directly and never
perform a health check. -/
theorem health_check_precedes_main_operation :
    (∀ fl w, clientCalls (signMain fl w).2 ∈
      ([[], [ClientCall.healthCheck], [ClientCall.healthCheck, ClientCall.signSBOM]] :
        List (List ClientCall))) ∧
    (∀ fl w, clientCalls (verifyMain fl w).2 ∈
      ([[], [ClientCall.healthCheck],
        [ClientCall.healthCheck, ClientCall.verifySPDXSBOM]] :
        List (List ClientCall))) ∧
    (∀ fl w, clientCalls (keymgmtListMain fl w).2 ∈
      ([[], [ClientCall.listKeys]] : List (List ClientCall))) ∧
    (∀ fl w, clientCalls (keymgmtGenerateMain fl w).2 ∈
      ([[], [ClientCall.generateKey]] : List (List ClientCall))) ∧
    (∀ fl w, clientCalls (keymgmtPublicMain fl w).2 ∈
      ([[], [ClientCall.getPublicKey]] : List (List ClientCall))) := by
  refine ⟨?_, ?_, ?_, ?_, ?_⟩ <;> intro fl w
  · unfold signMain
    repeat' split
    all_goals simp_all [clientCalls, clientCalls_cons_signOut]
  · unfold verifyMain
    repeat' split
    all_goals simp_all [clientCalls, flagString]
  · unfold keymgmtListMain
    repeat' split
    all_goals simp_all [clientCalls]
  · unfold keymgmtGenerateMain
    repeat' split
    all_goals simp_all [clientCalls]
  · unfold keymgmtPublicMain
    repeat' split
    all_goals simp_all [clientCalls]

/-- Claim C8: with -help not set, the verify CLI exits 0 exactly when
every step succeeds (key id present, output format valid, client
construction, SBOM load, health check, verify call, result output)
and the verify result has Valid = true; it exits 1 when Valid is
false or any step fails. -/
theorem verify_exit_code (fl : VerifyFlags) (w : VerifyWorld) (hh : fl.help = false) :
    (verifyMain fl w).1 =
      if verifyStepsOkB fl w && resultValid w then 0 else 1 := by
  unfold verifyMain verifyStepsOkB resultValid
  rw [hh]
  repeat' split
  all_goals simp_all [exOk, flagString]

/-- Witness for C8 at a concrete input: a run over a tampered document
(all steps succeed, Valid = false) exits with code 1. -/
theorem verify_exit_code_witness :
    (verifyMain ⟨false, "key-2", "sbom.json", none, "ak", "", "json", 30, 3, false⟩
        ⟨fun _ => none, .ok "tampered", none,
         .ok ⟨false, "signature mismatch", "key-2", "ES256"⟩, none⟩).1 =
      if verifyStepsOkB ⟨false, "key-2", "sbom.json", none, "ak", "", "json", 30, 3, false⟩
          ⟨fun _ => none, .ok "tampered", none,
           .ok ⟨false, "signature mismatch", "key-2", "ES256"⟩, none⟩ &&
        resultValid ⟨fun _ => none, .ok "tampered", none,
           .ok ⟨false, "signature mismatch", "key-2", "ES256"⟩, none⟩
      then 0 else 1 :=
  verify_exit_code _ _ rfl

/-- Claim C9: when keymgmt generate is invoked with a non-empty
-save-public path and the GenerateKey call succeeds, the CLI writes
exactly the returned PublicKey string to that path, and does so
before rendering the key to stdout. -/
theorem generate_saves_public_key_verbatim (fl : GenerateFlags) (w : GenerateWorld)
    (key : GeneratedKey)
    (hout : ¬ (fl.output ≠ "table" ∧ fl.output ≠ "json"))
    (hclient : ∃ cl, keymgmtCreateClient fl.apiKey fl.baseURL fl.timeout w.env = .ok cl)
    (hsave : fl.savePublic ≠ "")
    (hgen : w.generateResult = .ok key)
    (hwrite : w.writeErr = none) :
    (keymgmtGenerateMain fl w).2 =
      [Event.clientCall ClientCall.generateKey,
       Event.writeFile fl.savePublic key.publicKey, Event.render] := by
  obtain ⟨cl, hcl⟩ := hclient
  unfold keymgmtGenerateMain
  simp [hout, hcl, hgen, hsave, hwrite]

/-- Witness for C9 at a concrete input: the generated public key bytes
are written verbatim to out.pem before the stdout rendering. -/
theorem generate_saves_public_key_verbatim_witness :
    (keymgmtGenerateMain ⟨"", "", "table", "out.pem", 30, false⟩
        ⟨fun _ => some "apikey", .ok ⟨"kid-1", "ES256", "PEM BYTES"⟩, none⟩).2 =
      [Event.clientCall ClientCall.generateKey,
       Event.writeFile "out.pem" "PEM BYTES", Event.render] :=
  generate_saves_public_key_verbatim _ _ ⟨"kid-1", "ES256", "PEM BYTES"⟩
    (by decide)
    ⟨ClientDesc.base ⟨"apikey", "apikey", 30, defaultUserAgent⟩, rfl⟩
    (by decide) rfl rfl

/-- Claim C10: the keymgmt CLI returns the built base client directly
(never a retrying client) and registers no -retries flag in any
subcommand, so each keymgmt client call performs exactly one attempt,
while the sign and verify CLIs register -retries (default 3) and wrap
the base client in the retry decorator with InitialWait 1s, MaxWait
10s, Multiplier 2.0 whenever retries > 0. -/
theorem keymgmt_client_never_retries :
    (∀ a b t env, keymgmtCreateClient a b t env =
        ((keymgmtConfigBuilder a b t env).buildClient).map ClientDesc.base) ∧
    ("retries" ∉ keymgmtListFlagNames ∧ "retries" ∉ keymgmtGenerateFlagNames ∧
      "retries" ∉ keymgmtPublicFlagNames) ∧
    (∀ (cfg : Config) (op : Nat → AttemptOutcome Unit),
      clientCallAttempts (ClientDesc.base cfg) op = 1) ∧
    ("retries" ∈ signFlagNames ∧ "retries" ∈ verifyFlagNames ∧
      signRetriesDefault = 3 ∧ verifyRetriesDefault = 3) ∧
    (∀ a b t (r : Int) env, 0 < r →
      signCreateClient a b t r env =
        ((signConfigBuilder a b t env).buildClient).map
          (fun cfg => ClientDesc.retrying cfg ⟨r.toNat, 1, 10, 2⟩)) ∧
    (∀ a b t (r : Int) env, 0 < r →
      verifyCreateClient a b t r env =
        ((verifyConfigBuilder a b t env).buildClient).map
          (fun cfg => ClientDesc.retrying cfg ⟨r.toNat, 1, 10, 2⟩)) := by
  refine ⟨fun a b t env => rfl, by decide, fun cfg op => rfl, by decide, ?_, ?_⟩
  · intro a b t r env hr
    unfold signCreateClient
    cases h : (signConfigBuilder a b t env).buildClient <;> simp [Except.map, hr]
  · intro a b t r env hr
    unfold verifyCreateClient
    cases h : (verifyConfigBuilder a b t env).buildClient <;> simp [Except.map, hr]

/-- Witness for C10 at a concrete input: with retries = 3 both the sign
and verify clients are the retry-decorated base client with the fixed
policy. -/
theorem keymgmt_client_never_retries_witness :
    signCreateClient "sk" "" 30 3 (fun _ => none) =
      ((signConfigBuilder "sk" "" 30 (fun _ => none)).buildClient).map
        (fun cfg => ClientDesc.retrying cfg ⟨(3 : Int).toNat, 1, 10, 2⟩) ∧
    verifyCreateClient "sk" "" 30 3 (fun _ => none) =
      ((verifyConfigBuilder "sk" "" 30 (fun _ => none)).buildClient).map
        (fun cfg => ClientDesc.retrying cfg ⟨(3 : Int).toNat, 1, 10, 2⟩) :=
  ⟨keymgmt_client_never_retries.2.2.2.2.1 "sk" "" 30 3 (fun _ => none) (by decide),
   keymgmt_client_never_retries.2.2.2.2.2 "sk" "" 30 3 (fun _ => none) (by decide)⟩

end SecureSBOM
